import Mathlib

/-!
Shallow embedding of the request/response argument writer/reader layer of the
tchannel Go transport (`golang/reqres.go`), together with a model of its
external collaborators (typed read/write buffers, checksum abstraction,
message exchange, fragmenting writer/reader) taken from the specification
where the collaborator's code is not part of the core.

Conventions:
- A wire byte is a `Nat` (its value, where it matters, is below 256; no
  arithmetic is performed on payload bytes, they are opaque data).
- Go `error` values are the inductive `GoError`; `nil` is `Option.none`.
- Go methods returning `(T, error)` become functions returning
  `Except GoError T` paired with the mutated receiver.
- `mex.shutdown()` is modelled as a call counter on the owning writer/reader,
  which is what the claims about "shutdown exactly once" observe.
-/

namespace TChannel

abbrev Byte := Nat

/-- Error values reachable in the modelled code. `writerStateMismatch` and
`readerStateMismatch` are the two sentinel errors declared at the top of
reqres.go; `sendBufferFull` is ErrSendBufferFull; `cancelled` stands for the
context error returned when the exchange's cancellation signal has fired;
`codecErr` is a typed-buffer read failure surfaced by parseInboundFragment;
`exchangeClosed` and `unexpectedFrameType` are failures of the message
exchange's frame delivery; `other n` stands for any further distinct error
value handed in by a collaborator. -/
inductive GoError where
  | writerStateMismatch
  | readerStateMismatch
  | sendBufferFull
  | cancelled
  | codecErr
  | exchangeClosed
  | unexpectedFrameType
  | other (n : Nat)
deriving DecidableEq, Repr

/-- A message, as the codec sees it: a message-type code and the header bytes
its binary writer emits (and its binary reader consumes back). -/
structure message where
  messageType : Byte
  header : List Byte
deriving DecidableEq, Repr

/-- The checksum abstraction consumed by the codec: a type code, a digest
size, and the digest over the accumulated argument bytes. -/
structure Checksum where
  typeCode : Byte
  size : Nat
  digest : List Byte → List Byte

/-- The writer states of reqres.go: PreArg1 → PreArg2 → PreArg3 → Complete. -/
inductive reqResWriterState where
  | PreArg1
  | PreArg2
  | PreArg3
  | Complete
deriving DecidableEq, Repr

/-- The reader states of reqres.go, mirroring the writer. -/
inductive reqResReaderState where
  | PreArg1
  | PreArg2
  | PreArg3
  | Complete
deriving DecidableEq, Repr

/-- The observable state of a reqResWriter: its state enum, its sticky error
latch, and the number of times it has invoked `mex.shutdown()`. -/
structure reqResWriter where
  state : reqResWriterState
  err : Option GoError
  shutdownCount : Nat
deriving DecidableEq, Repr

/-- A freshly constructed writer: state PreArg1, no latched error, exchange
not yet shut down. -/
def reqResWriter.init : reqResWriter :=
  { state := .PreArg1, err := none, shutdownCount := 0 }

/-- reqResWriter.failed: first-error-wins latch. If an error is already
stored it is returned and nothing changes; otherwise the exchange is shut
down, the error is stored, and it is returned. -/
def reqResWriter.failed (w : reqResWriter) (e : GoError) : GoError × reqResWriter :=
  match w.err with
  | some e0 => (e0, w)
  | none => (e, { w with err := some e, shutdownCount := w.shutdownCount + 1 })

/-- The argument handle returned by a successful argument open; it records the
`last` flag that was passed through to the fragmenting layer's ArgWriter /
ArgReader. -/
structure ArgHandle where
  last : Bool
deriving DecidableEq, Repr

/-- reqResWriter.argWriter. `cres` is the outcome of the external call
`contents.ArgWriter(last)` (`none` = success, `some e` = it failed with `e`);
the Go code consults it only on the path that reaches it. -/
def reqResWriter.argWriter (w : reqResWriter) (cres : Option GoError) (last : Bool)
    (inState outState : reqResWriterState) : Except GoError ArgHandle × reqResWriter :=
  match w.err with
  | some e => (.error e, w)
  | none =>
    if w.state = inState then
      match cres with
      | some e => (.error e, w)
      | none => (.ok { last := last }, { w with state := outState })
    else
      let p := w.failed .writerStateMismatch
      (.error p.1, p.2)

def reqResWriter.arg1Writer (w : reqResWriter) (cres : Option GoError) :
    Except GoError ArgHandle × reqResWriter :=
  w.argWriter cres false .PreArg1 .PreArg2

def reqResWriter.arg2Writer (w : reqResWriter) (cres : Option GoError) :
    Except GoError ArgHandle × reqResWriter :=
  w.argWriter cres false .PreArg2 .PreArg3

def reqResWriter.arg3Writer (w : reqResWriter) (cres : Option GoError) :
    Except GoError ArgHandle × reqResWriter :=
  w.argWriter cres true .PreArg3 .Complete

/-- The case a Go `select` statement with a ctx.Done receive, a channel send
and a `default` branch ends up executing. -/
inductive SelectCase where
  | ctxDone
  | send
  | dflt
deriving DecidableEq, Repr

/-- Go select semantics for flushFragment's statement: the Done receive is
ready iff the cancellation signal has fired (`cancelled`), the send is ready
iff the transport can accept the frame immediately (`accepts`); when both are
ready Go chooses between them (`pick` resolves the choice: true = the Done
case); the default branch runs only when neither is ready. -/
def selectOutcome (cancelled accepts pick : Bool) : SelectCase :=
  if cancelled && accepts then (if pick then .ctxDone else .send)
  else if cancelled then .ctxDone
  else if accepts then .send
  else .dflt

/-- reqResWriter.flushFragment, with the frame-payload bookkeeping elided
down to its outcome: latched error short-circuit, then the non-blocking
select over cancellation / send / default. Returns `none` on success. -/
def reqResWriter.flushFragment (w : reqResWriter) (cancelled accepts pick : Bool) :
    Option GoError × reqResWriter :=
  match w.err with
  | some e => (some e, w)
  | none =>
    match selectOutcome cancelled accepts pick with
    | .ctxDone => let p := w.failed .cancelled; (some p.1, p.2)
    | .send => (none, w)
    | .dflt => let p := w.failed .sendBufferFull; (some p.1, p.2)

/-! ## Fragment codec -/

/-- Modelled from the spec: the typed write buffer (`typed.WriteBuffer`, not
part of the core) is a sequential write cursor over the frame payload with
"reserve N bytes, remember the offset, fill them in later" deferred slots.
We model the payload as the list of bytes written so far; a deferred slot is
reserved as zero bytes at the current cursor and filled by splicing at its
remembered offset. -/
structure WBuf where
  data : List Byte
deriving DecidableEq, Repr

def WBuf.writeByte (b : WBuf) (x : Byte) : WBuf := ⟨b.data ++ [x]⟩

def WBuf.writeBytes (b : WBuf) (xs : List Byte) : WBuf := ⟨b.data ++ xs⟩

/-- Reserve one byte at the cursor; returns the buffer and the slot offset. -/
def WBuf.deferByte (b : WBuf) : WBuf × Nat :=
  (⟨b.data ++ [0]⟩, b.data.length)

/-- Reserve `n` bytes at the cursor; returns the buffer and the slot offset. -/
def WBuf.deferBytes (b : WBuf) (n : Nat) : WBuf × Nat :=
  (⟨b.data ++ List.replicate n 0⟩, b.data.length)

/-- Fill a previously deferred slot at offset `off` with the bytes `xs`. -/
def WBuf.fill (b : WBuf) (off : Nat) (xs : List Byte) : WBuf :=
  ⟨b.data.take off ++ xs ++ b.data.drop (off + xs.length)⟩

/-- An outbound fragment under construction: the payload buffer, the
remembered offsets of the deferred flag byte and checksum-value slot, and the
checksum metadata it was built with. -/
structure writableFragment where
  buf : WBuf
  flagsRef : Nat
  checksumRef : Nat
  checksumTypeCode : Byte
  checksumSize : Nat
deriving DecidableEq, Repr

/-- reqResWriter.newFragment, payload portion: defer one flag byte at the
front, serialize the message header, write the checksum type code as one
byte, then defer exactly the checksum's digest size bytes for the checksum
value. (Frame-header bookkeeping — correlation id and message type — lives
outside the payload and is elided; message.write on a well-formed message
emits its header bytes.) -/
def newFragment (m : message) (ck : Checksum) : writableFragment :=
  let b0 : WBuf := ⟨[]⟩
  let p1 := b0.deferByte
  let b2 := p1.1.writeBytes m.header
  let b3 := b2.writeByte ck.typeCode
  let p4 := b3.deferBytes ck.size
  { buf := p4.1, flagsRef := p1.2, checksumRef := p4.2,
    checksumTypeCode := ck.typeCode, checksumSize := ck.size }

/-- Argument bytes for this fragment are appended through the fragment's
write cursor (`fragment.contents`) by the fragmenting writer. -/
def writableFragment.append (f : writableFragment) (xs : List Byte) : writableFragment :=
  { f with buf := f.buf.writeBytes xs }

/-- Modelled from the spec: at flush time, once all argument bytes for the
fragment are known, the fragmenting writer fills the deferred flag byte and
the deferred checksum-value slot; the result is the fragment's final wire
payload. -/
def writableFragment.finalize (f : writableFragment) (flags : Byte) (ckVal : List Byte) :
    List Byte :=
  ((f.buf.fill f.flagsRef [flags]).fill f.checksumRef ckVal).data

/-- A parsed inbound fragment: the flag byte, the checksum type and checksum
bytes read off the wire, and the remaining bytes (the argument payload),
i.e. the read cursor positioned at the start of argument data. -/
structure readableFragment where
  flags : Byte
  checksumType : Byte
  checksum : List Byte
  contents : List Byte
deriving DecidableEq, Repr

/-- parseInboundFragment over a frame's sized payload. `sizes` is the
external `ChecksumType.ChecksumSize` table mapping a checksum type code to
its digest size (modelled from the spec; the concrete table is not part of
the core). Reads: one flag byte; the message header (message.read consumes
the bytes its writer emitted); one checksum-type byte; exactly that type's
digest-size checksum bytes. A read past the end of the buffer is the typed
read buffer's error, surfaced as `codecErr`. -/
def parseInboundFragment (sizes : Byte → Nat) (payload : List Byte) (m : message) :
    Except GoError readableFragment :=
  match payload with
  | [] => .error .codecErr
  | flags :: r1 =>
    if m.header.length ≤ r1.length then
      match r1.drop m.header.length with
      | [] => .error .codecErr
      | ct :: r3 =>
        if sizes ct ≤ r3.length then
          .ok { flags := flags, checksumType := ct,
                checksum := r3.take (sizes ct), contents := r3.drop (sizes ct) }
        else .error .codecErr
    else .error .codecErr

/-! ## Reader -/

/-- An inbound frame as the reader sees it: its message-type code and its
sized payload. -/
structure Frame where
  msgType : Byte
  payload : List Byte
deriving DecidableEq, Repr

/-- The observable state of a reqResReader: the state enum, the sticky error
latch, the shutdown call counter, the single-slot cache for an initial
fragment received before the reader started pulling, the queue of inbound
frames the message exchange will deliver, and the message-selection
function. -/
structure reqResReader where
  state : reqResReaderState
  err : Option GoError
  shutdownCount : Nat
  initialFragment : Option readableFragment
  frames : List Frame
  messageForFragment : Bool → message

/-- reqResReader.failed: first-error-wins latch, shutting the exchange down
on the first failure only (identical in shape to the writer's). -/
def reqResReader.failed (r : reqResReader) (e : GoError) : GoError × reqResReader :=
  match r.err with
  | some e0 => (e0, r)
  | none => (e, { r with err := some e, shutdownCount := r.shutdownCount + 1 })

/-- reqResReader.argReader. `cres` is the outcome of the external call
`contents.ArgReader(last)`. Note the Go code checks only the state here —
there is no latched-error short-circuit on this path. -/
def reqResReader.argReader (r : reqResReader) (cres : Option GoError) (last : Bool)
    (inState outState : reqResReaderState) : Except GoError ArgHandle × reqResReader :=
  if r.state = inState then
    match cres with
    | some e => let p := r.failed e; (.error p.1, p.2)
    | none => (.ok { last := last }, { r with state := outState })
  else
    let p := r.failed .readerStateMismatch
    (.error p.1, p.2)

def reqResReader.arg1Reader (r : reqResReader) (cres : Option GoError) :
    Except GoError ArgHandle × reqResReader :=
  r.argReader cres false .PreArg1 .PreArg2

def reqResReader.arg2Reader (r : reqResReader) (cres : Option GoError) :
    Except GoError ArgHandle × reqResReader :=
  r.argReader cres false .PreArg2 .PreArg3

def reqResReader.arg3Reader (r : reqResReader) (cres : Option GoError) :
    Except GoError ArgHandle × reqResReader :=
  r.argReader cres true .PreArg3 .Complete

/-- Modelled from the spec: `mex.recvPeerFrameOfType` supplies the next
inbound frame for this call and fails if it is not of the expected message
type; an exhausted/void exchange (shutdown, cancellation, connection gone)
yields an error instead of a frame. -/
def recvPeerFrameOfType (t : Byte) (frames : List Frame) :
    Except GoError (Frame × List Frame) :=
  match frames with
  | [] => .error .exchangeClosed
  | f :: rest => if f.msgType = t then .ok (f, rest) else .error .unexpectedFrameType

/-- reqResReader.recvNextFragment: a cached initial fragment is consumed
first (and the cache cleared, with no exchange interaction); otherwise the
next frame of the message type expected for `initial` is received from the
exchange and parsed by the fragment codec, any failure latching the
reader. -/
def reqResReader.recvNextFragment (r : reqResReader) (sizes : Byte → Nat) (initial : Bool) :
    Except GoError readableFragment × reqResReader :=
  match r.initialFragment with
  | some fragment => (.ok fragment, { r with initialFragment := none })
  | none =>
    let m := r.messageForFragment initial
    match recvPeerFrameOfType m.messageType r.frames with
    | .error e =>
      let p := r.failed e
      (.error p.1, p.2)
    | .ok (frame, rest) =>
      match parseInboundFragment sizes frame.payload m with
      | .error e =>
        let p := ({ r with frames := rest } : reqResReader).failed e
        (.error p.1, p.2)
      | .ok fragment => (.ok fragment, { r with frames := rest })

/-- A freshly constructed reader: state PreArg1, no latched error, exchange
not yet shut down; `cached` is the optional initial fragment the reader was
constructed with, `frames` the frames the exchange will deliver. -/
def reqResReader.init (mf : Bool → message) (cached : Option readableFragment)
    (frames : List Frame) : reqResReader :=
  { state := .PreArg1, err := none, shutdownCount := 0,
    initialFragment := cached, frames := frames, messageForFragment := mf }

/-! ## Iterated failure reporting, for the latch claims -/

/-- Report a sequence of failures to a writer, in order. -/
def reqResWriter.runFailed (w : reqResWriter) (es : List GoError) : reqResWriter :=
  es.foldl (fun w e => (w.failed e).2) w

/-- Report a sequence of failures to a reader, in order. -/
def reqResReader.runFailed (r : reqResReader) (es : List GoError) : reqResReader :=
  es.foldl (fun r e => (r.failed e).2) r

/-! ## The specification's stated wire layout, for comparison -/

/-- The per-fragment payload layout exactly as the specification's sentence
orders it: message header fields first, then the reserved flag byte, then the
argument payload bytes, then the checksum-type byte, then the checksum value.
Declared only to be compared against the layout the code actually
produces. -/
def specClaimedLayout (m : message) (ck : Checksum) (flags : Byte)
    (ckVal args : List Byte) : List Byte :=
  m.header ++ [flags] ++ args ++ [ck.typeCode] ++ ckVal

/-! ## Spec-modelled fragmenting round trip -/

/-- One fragment's final wire payload carrying one chunk of argument bytes:
built by newFragment, the chunk appended through the fragment's write cursor,
flag byte and checksum digest filled at flush. -/
def buildFragmentPayload (m : message) (ck : Checksum) (flags : Byte)
    (chunk : List Byte) : List Byte :=
  ((newFragment m ck).append chunk).finalize flags (ck.digest chunk)

/-- Modelled from the spec: the fragmenting writer splits an argument's byte
stream into per-fragment chunks (joining the chunks restores the stream) and
emits one fragment per chunk, each fragment built with the message the
writer's message-selection function picked for it. -/
def writeArgFragments (ck : Checksum) (flags : Byte) (ms : List message)
    (chunks : List (List Byte)) : List (List Byte) :=
  List.zipWith (fun m c => buildFragmentPayload m ck flags c) ms chunks

/-- Modelled from the spec: the fragmenting reader parses each received
fragment payload with the message expected for it and reassembles the
argument by concatenating the argument bytes of each fragment, propagating
the first parse failure. -/
def readArgFragments (sizes : Byte → Nat) (ms : List message)
    (payloads : List (List Byte)) : Except GoError (List Byte) :=
  match ms, payloads with
  | m :: ms2, p :: ps2 =>
    match parseInboundFragment sizes p m with
    | .error e => .error e
    | .ok fr =>
      match readArgFragments sizes ms2 ps2 with
      | .error e => .error e
      | .ok bs => .ok (fr.contents ++ bs)
  | _, _ => .ok []

/-! ## Concrete fixtures for witnesses and counterexamples -/

/-- A sample message-selection function: message type 1 with a one-byte
header for the initial fragment, type 2 for continuations. -/
def mfSample : Bool → message :=
  fun b => if b then { messageType := 1, header := [7] } else { messageType := 2, header := [7] }

/-- A sample parsed fragment. -/
def fragSample : readableFragment :=
  { flags := 0, checksumType := 2, checksum := [5], contents := [9] }

/-- A sample checksum: type code 2, one-byte digest, constant digest value. -/
def ckSample : Checksum :=
  { typeCode := 2, size := 1, digest := fun _ => [5] }

/-- A sample digest-size table for the sample checksum. -/
def sizesSample : Byte → Nat := fun t => if t = 2 then 1 else 0

/-- A writer latched with the backpressure error while still in PreArg1. -/
def latchedWriter : reqResWriter :=
  { state := .PreArg1, err := some .sendBufferFull, shutdownCount := 1 }

/-- A writer latched with the backpressure error after completing. -/
def latchedCompleteWriter : reqResWriter :=
  { state := .Complete, err := some .sendBufferFull, shutdownCount := 1 }

/-- A reader latched with the backpressure error while still in PreArg1. -/
def latchedReader : reqResReader :=
  { state := .PreArg1, err := some .sendBufferFull, shutdownCount := 1,
    initialFragment := none, frames := [], messageForFragment := mfSample }

/-- A reader latched with the backpressure error while in PreArg2. -/
def latchedReader2 : reqResReader :=
  { state := .PreArg2, err := some .sendBufferFull, shutdownCount := 1,
    initialFragment := none, frames := [], messageForFragment := mfSample }

/-- An unlatched writer that has already completed all three arguments. -/
def completeWriter : reqResWriter :=
  { state := .Complete, err := none, shutdownCount := 0 }

/-- An unlatched reader that has already completed all three arguments. -/
def completeReader : reqResReader :=
  { state := .Complete, err := none, shutdownCount := 0,
    initialFragment := none, frames := [], messageForFragment := mfSample }

/-! ## Helper lemmas -/

/-- Filling a deferred slot splices the fill bytes over the reserved zeros. -/
lemma WBuf.fill_spec (b : WBuf) (l1 mid rest xs : List Byte) (off : Nat)
    (hd : b.data = l1 ++ (mid ++ rest)) (hmid : mid.length = xs.length)
    (hoff : off = l1.length) :
    b.fill off xs = ⟨l1 ++ (xs ++ rest)⟩ := by
  subst hoff
  unfold WBuf.fill
  rw [hd]
  have ht : (l1 ++ (mid ++ rest)).take l1.length = l1 := List.take_left _ _
  have hdd : (l1 ++ (mid ++ rest)).drop (l1.length + xs.length) = rest := by
    rw [← hmid, ← List.append_assoc, ← List.length_append, List.drop_left]
  rw [ht, hdd]
  simp

/-- The final wire payload a fragment built by newFragment produces once its
argument bytes are appended and its deferred slots are filled: the flag byte,
then the message header, then the checksum type code, then the checksum
value, then the argument bytes. -/
lemma fragment_layout (m : message) (ck : Checksum) (args : List Byte) (flags : Byte)
    (ckVal : List Byte) (h : ckVal.length = ck.size) :
    ((newFragment m ck).append args).finalize flags ckVal
      = flags :: (m.header ++ ck.typeCode :: (ckVal ++ args)) := by
  unfold writableFragment.finalize
  rw [WBuf.fill_spec ((newFragment m ck).append args).buf []
        [0] (m.header ++ ([ck.typeCode] ++ (List.replicate ck.size 0 ++ args))) [flags] _
        (by simp [newFragment, writableFragment.append, WBuf.deferByte, WBuf.writeBytes,
              WBuf.writeByte, WBuf.deferBytes])
        (by simp)
        (by simp [newFragment, writableFragment.append, WBuf.deferByte, WBuf.writeBytes,
              WBuf.writeByte, WBuf.deferBytes])]
  rw [WBuf.fill_spec _ ([flags] ++ (m.header ++ [ck.typeCode]))
        (List.replicate ck.size 0) args ckVal _
        (by simp)
        (by simp [h])
        (by simp [newFragment, writableFragment.append, WBuf.deferByte, WBuf.writeBytes,
              WBuf.writeByte, WBuf.deferBytes])]
  simp

/-- parseInboundFragment inverts the layout the writer produces. -/
lemma parse_layout (sizes : Byte → Nat) (m : message) (flags ct : Byte)
    (ckVal args : List Byte) (hs : sizes ct = ckVal.length) :
    parseInboundFragment sizes (flags :: (m.header ++ ct :: (ckVal ++ args))) m
      = .ok { flags := flags, checksumType := ct, checksum := ckVal, contents := args } := by
  unfold parseInboundFragment
  have hlen : m.header.length ≤ (m.header ++ ct :: (ckVal ++ args)).length := by simp
  have hdrop : (m.header ++ ct :: (ckVal ++ args)).drop m.header.length
      = ct :: (ckVal ++ args) := List.drop_left _ _
  simp only [hlen, if_true, hdrop, hs]
  have htk : (ckVal ++ args).take ckVal.length = ckVal := List.take_left _ _
  have hdr : (ckVal ++ args).drop ckVal.length = args := List.drop_left _ _
  simp [htk, hdr]

/-- Per-fragment codec round trip. -/
lemma parse_buildFragmentPayload (sizes : Byte → Nat) (m : message) (ck : Checksum)
    (flags : Byte) (chunk : List Byte)
    (hd : (ck.digest chunk).length = ck.size) (hs : sizes ck.typeCode = ck.size) :
    parseInboundFragment sizes (buildFragmentPayload m ck flags chunk) m
      = .ok { flags := flags, checksumType := ck.typeCode,
              checksum := ck.digest chunk, contents := chunk } := by
  unfold buildFragmentPayload
  rw [fragment_layout m ck chunk flags (ck.digest chunk) hd]
  exact parse_layout sizes m flags ck.typeCode (ck.digest chunk) chunk (by rw [hs, hd])

/-- Reassembling the fragments the fragmenting writer produced restores the
concatenation of the chunks. -/
lemma readArg_writeArg (sizes : Byte → Nat) (ck : Checksum) (flags : Byte)
    (ms : List message) (chunks : List (List Byte))
    (hlen : ms.length = chunks.length)
    (hd : ∀ bs, (ck.digest bs).length = ck.size) (hs : sizes ck.typeCode = ck.size) :
    readArgFragments sizes ms (writeArgFragments ck flags ms chunks)
      = .ok chunks.flatten := by
  induction ms generalizing chunks with
  | nil =>
    cases chunks with
    | nil => simp [readArgFragments, writeArgFragments]
    | cons c cs => simp at hlen
  | cons m ms ih =>
    cases chunks with
    | nil => simp at hlen
    | cons c cs =>
      have hlen2 : ms.length = cs.length := by simpa using hlen
      have hw : writeArgFragments ck flags (m :: ms) (c :: cs)
          = buildFragmentPayload m ck flags c :: writeArgFragments ck flags ms cs := by
        simp [writeArgFragments]
      have hstep : readArgFragments sizes (m :: ms)
            (buildFragmentPayload m ck flags c :: writeArgFragments ck flags ms cs)
          = match parseInboundFragment sizes (buildFragmentPayload m ck flags c) m with
            | .error e => .error e
            | .ok fr =>
              match readArgFragments sizes ms (writeArgFragments ck flags ms cs) with
              | .error e => .error e
              | .ok bs => .ok (fr.contents ++ bs) := rfl
      rw [hw, hstep, parse_buildFragmentPayload sizes m ck flags c (hd c) hs, ih cs hlen2]
      simp

/-- When the error latch is already set, failed reports the stored error and
changes nothing (writer). -/
lemma failed_latched_w (w : reqResWriter) (e0 e : GoError) (hw : w.err = some e0) :
    w.failed e = (e0, w) := by
  unfold reqResWriter.failed
  rw [hw]

/-- When the error latch is already set, failed reports the stored error and
changes nothing (reader). -/
lemma failed_latched_r (r : reqResReader) (e0 e : GoError) (hr : r.err = some e0) :
    r.failed e = (e0, r) := by
  unfold reqResReader.failed
  rw [hr]

/-- Once latched, any further sequence of failure reports leaves the writer
unchanged. -/
lemma runFailed_latched_w (w : reqResWriter) (e0 : GoError) (hw : w.err = some e0)
    (es : List GoError) : w.runFailed es = w := by
  induction es with
  | nil => rfl
  | cons e es ih =>
    unfold reqResWriter.runFailed
    rw [List.foldl_cons]
    have h1 : (w.failed e).2 = w := by rw [failed_latched_w w e0 e hw]
    rw [h1]
    exact ih

/-- Once latched, any further sequence of failure reports leaves the reader
unchanged. -/
lemma runFailed_latched_r (r : reqResReader) (e0 : GoError) (hr : r.err = some e0)
    (es : List GoError) : r.runFailed es = r := by
  induction es with
  | nil => rfl
  | cons e es ih =>
    unfold reqResReader.runFailed
    rw [List.foldl_cons]
    have h1 : (r.failed e).2 = r := by rw [failed_latched_r r e0 e hr]
    rw [h1]
    exact ih

/-- Inversion of a successful argWriter call. -/
lemma argWriter_ok_inv (w : reqResWriter) (cres : Option GoError) (last : Bool)
    (inS outS : reqResWriterState) (a : ArgHandle) (w' : reqResWriter)
    (h : w.argWriter cres last inS outS = (.ok a, w')) :
    w.err = none ∧ w.state = inS ∧ cres = none ∧ a.last = last
      ∧ w' = { w with state := outS } := by
  unfold reqResWriter.argWriter at h
  cases hw : w.err with
  | some e => rw [hw] at h; simp at h
  | none =>
    rw [hw] at h
    by_cases hst : w.state = inS
    · rw [if_pos hst] at h
      cases cres with
      | some e => simp at h
      | none =>
        simp only [Prod.mk.injEq] at h
        obtain ⟨h1, h2⟩ := h
        have ha : a = { last := last } := by
          cases h1
          rfl
        exact ⟨rfl, hst, rfl, by rw [ha], h2.symm⟩
    · rw [if_neg hst] at h
      simp at h

/-- Inversion of a successful argReader call. -/
lemma argReader_ok_inv (r : reqResReader) (cres : Option GoError) (last : Bool)
    (inS outS : reqResReaderState) (a : ArgHandle) (r' : reqResReader)
    (h : r.argReader cres last inS outS = (.ok a, r')) :
    r.state = inS ∧ cres = none ∧ a.last = last ∧ r' = { r with state := outS } := by
  unfold reqResReader.argReader at h
  by_cases hst : r.state = inS
  · rw [if_pos hst] at h
    cases cres with
    | some e => simp at h
    | none =>
      simp only [Prod.mk.injEq] at h
      obtain ⟨h1, h2⟩ := h
      have ha : a = { last := last } := by
        cases h1
        rfl
      exact ⟨hst, rfl, by rw [ha], h2.symm⟩
  · rw [if_neg hst] at h
    simp at h

/-! ## Claim theorems -/

/-- C1 (counterexample): the fragment payload the code builds does not follow
the order the claim states. At a concrete message (one-byte header 7),
checksum (type code 2, one-byte digest), flag byte 1, checksum value 5 and
argument byte 9, the code produces the payload 1,7,2,5,9 (flag byte first,
checksum type and value before the argument bytes), while the claimed order
[header][flag][args][checksum type][checksum value] would be 7,1,9,2,5. -/
theorem c1_fragment_wire_layout_counterexample :
    ((newFragment (mfSample true) ckSample).append [9]).finalize 1 [5]
      ≠ specClaimedLayout (mfSample true) ckSample 1 [5] [9] := by
  decide

/-- C1 (amended): for every outbound fragment built by newFragment and every
inbound fragment parsed by parseInboundFragment, the payload is laid out in
this order: first one flag byte, then the message header fields, then one
checksum-type byte, then exactly checksum-digest-size bytes of checksum
value, then the argument payload bytes for this fragment. -/
theorem c1_fragment_wire_layout (m : message) (ck : Checksum) (sizes : Byte → Nat)
    (flags : Byte) (ckVal args : List Byte)
    (h : ckVal.length = ck.size) (hs : sizes ck.typeCode = ck.size) :
    ((newFragment m ck).append args).finalize flags ckVal
      = flags :: (m.header ++ ck.typeCode :: (ckVal ++ args))
  ∧ parseInboundFragment sizes (flags :: (m.header ++ ck.typeCode :: (ckVal ++ args))) m
      = .ok { flags := flags, checksumType := ck.typeCode,
              checksum := ckVal, contents := args } :=
  ⟨fragment_layout m ck args flags ckVal h,
   parse_layout sizes m flags ck.typeCode ckVal args (by rw [hs, h])⟩

/-- C1 witness: the amended layout at a concrete fragment. -/
theorem c1_fragment_wire_layout_witness :
    ((newFragment (mfSample true) ckSample).append [9]).finalize 1 [5]
      = 1 :: ((mfSample true).header ++ ckSample.typeCode :: ([5] ++ [9]))
  ∧ parseInboundFragment sizesSample
      (1 :: ((mfSample true).header ++ ckSample.typeCode :: ([5] ++ [9]))) (mfSample true)
      = .ok { flags := 1, checksumType := ckSample.typeCode,
              checksum := [5], contents := [9] } :=
  c1_fragment_wire_layout (mfSample true) ckSample sizesSample 1 [5] [9]
    (by decide) (by decide)

/-- C8: for every logical call, writing the arguments through the fragmenting
writer (each argument split into arbitrarily many chunks, one fragment per
chunk, built by newFragment) and reading them back through the fragmenting
reader (each fragment parsed by parseInboundFragment, argument bytes
concatenated) yields, for each argument N, exactly the bytes written for
argument N, regardless of how many fragments each argument spanned; and
parsing a fragment built by newFragment recovers the flag byte, checksum
type and checksum value that were written. -/
theorem c8_argument_round_trip (ck : Checksum) (sizes : Byte → Nat) (flags : Byte)
    (a1 a2 a3 : List Byte) (m1 m2 m3 : List message) (c1 c2 c3 : List (List Byte))
    (h1 : c1.flatten = a1) (h2 : c2.flatten = a2) (h3 : c3.flatten = a3)
    (hl1 : m1.length = c1.length) (hl2 : m2.length = c2.length) (hl3 : m3.length = c3.length)
    (hd : ∀ bs, (ck.digest bs).length = ck.size) (hs : sizes ck.typeCode = ck.size) :
    readArgFragments sizes m1 (writeArgFragments ck flags m1 c1) = .ok a1
  ∧ readArgFragments sizes m2 (writeArgFragments ck flags m2 c2) = .ok a2
  ∧ readArgFragments sizes m3 (writeArgFragments ck flags m3 c3) = .ok a3
  ∧ ∀ (m : message) (chunk : List Byte),
      parseInboundFragment sizes (buildFragmentPayload m ck flags chunk) m
        = .ok { flags := flags, checksumType := ck.typeCode,
                checksum := ck.digest chunk, contents := chunk } := by
  refine ⟨?_, ?_, ?_, ?_⟩
  · rw [readArg_writeArg sizes ck flags m1 c1 hl1 hd hs, h1]
  · rw [readArg_writeArg sizes ck flags m2 c2 hl2 hd hs, h2]
  · rw [readArg_writeArg sizes ck flags m3 c3 hl3 hd hs, h3]
  · intro m chunk
    exact parse_buildFragmentPayload sizes m ck flags chunk (hd chunk) hs

/-- C8 witness: a concrete call whose first argument spans two fragments. -/
theorem c8_argument_round_trip_witness :
    readArgFragments sizesSample [mfSample true, mfSample false]
        (writeArgFragments ckSample 0 [mfSample true, mfSample false] [[1], [2]])
      = .ok [1, 2]
  ∧ readArgFragments sizesSample [mfSample false]
        (writeArgFragments ckSample 0 [mfSample false] [[3]]) = .ok [3]
  ∧ readArgFragments sizesSample []
        (writeArgFragments ckSample 0 [] []) = .ok [] := by
  have h := c8_argument_round_trip ckSample sizesSample 0 [1, 2] [3] []
    [mfSample true, mfSample false] [mfSample false] [] [[1], [2]] [[3]] []
    rfl rfl rfl rfl rfl rfl (fun _ => rfl) rfl
  exact ⟨h.1, h.2.1, h.2.2.1⟩

/-- C2 (counterexample): the reader does not consult its failure latch when
opening an argument. A reader latched with the send-buffer-full error but
still in the matching state PreArg1, whose underlying ArgReader call
succeeds, returns a fresh argument handle with no error instead of the
latched error — and the underlying I/O was attempted. -/
theorem c2_latched_error_counterexample :
    latchedReader.err = some .sendBufferFull
  ∧ (latchedReader.arg1Reader none).1 = .ok { last := false } :=
  ⟨rfl, rfl⟩

/-- C2 (amended): once the writer's latch is set, every argument-open on the
writer returns the latched error unchanged and untouched state (so no I/O is
attempted). The reader, however, does not check its latch on argument-open:
on a state mismatch, or when the underlying ArgReader call fails, the
latched error (never a new one) is returned; but when the state matches and
the underlying ArgReader call succeeds, a fresh argument handle is returned
with no error despite the latch. -/
theorem c2_latched_error_propagation (e : GoError) :
    (∀ (w : reqResWriter) (cres : Option GoError) (lst : Bool)
        (inS outS : reqResWriterState), w.err = some e →
        w.argWriter cres lst inS outS = (.error e, w))
  ∧ (∀ (r : reqResReader) (cres : Option GoError) (lst : Bool)
        (inS outS : reqResReaderState), r.err = some e → r.state ≠ inS →
        (r.argReader cres lst inS outS).1 = .error e)
  ∧ (∀ (r : reqResReader) (e2 : GoError) (lst : Bool)
        (inS outS : reqResReaderState), r.err = some e → r.state = inS →
        (r.argReader (some e2) lst inS outS).1 = .error e)
  ∧ (∀ (r : reqResReader) (lst : Bool) (inS outS : reqResReaderState),
        r.err = some e → r.state = inS →
        (r.argReader none lst inS outS).1 = .ok { last := lst }) := by
  refine ⟨?_, ?_, ?_, ?_⟩
  · intro w cres lst inS outS hw
    unfold reqResWriter.argWriter
    rw [hw]
  · intro r cres lst inS outS hr hst
    unfold reqResReader.argReader
    rw [if_neg hst, failed_latched_r r e .readerStateMismatch hr]
  · intro r e2 lst inS outS hr hst
    unfold reqResReader.argReader
    rw [if_pos hst]
    show (Except.error (r.failed e2).1, (r.failed e2).2).1 = Except.error e
    rw [failed_latched_r r e e2 hr]
  · intro r lst inS outS hr hst
    unfold reqResReader.argReader
    rw [if_pos hst]

/-- C2 witness: the amended behaviour at concrete latched instances. -/
theorem c2_latched_error_propagation_witness :
    latchedWriter.argWriter none false .PreArg1 .PreArg2
      = (.error .sendBufferFull, latchedWriter)
  ∧ (latchedReader2.argReader none false .PreArg1 .PreArg2).1 = .error .sendBufferFull
  ∧ (latchedReader.argReader (some .codecErr) false .PreArg1 .PreArg2).1
      = .error .sendBufferFull
  ∧ (latchedReader.argReader none false .PreArg1 .PreArg2).1 = .ok { last := false } := by
  have h := c2_latched_error_propagation .sendBufferFull
  exact ⟨h.1 latchedWriter none false .PreArg1 .PreArg2 rfl,
         h.2.1 latchedReader2 none false .PreArg1 .PreArg2 rfl (by decide),
         h.2.2.1 latchedReader .codecErr false .PreArg1 .PreArg2 rfl rfl,
         h.2.2.2 latchedReader false .PreArg1 .PreArg2 rfl rfl⟩

/-- C3 (counterexample): when the cancellation signal has already fired but
the transport can also accept the frame immediately, the select statement
may take the send case: on a fresh (unlatched) writer with both the Done
receive and the send ready and the runtime choosing the send case,
flushFragment succeeds instead of failing with the cancellation error. -/
theorem c3_flush_counterexample :
    reqResWriter.init.err = none
  ∧ (reqResWriter.init.flushFragment true true false).1 = none := by
  decide

/-- C3 (amended): every flushFragment call on an unlatched writer has exactly
one of three outcomes — success (possible only if the transport accepts
immediately), the cancellation error (possible only if the cancellation
signal has fired), or the send-buffer-full error (exactly when the signal
has not fired and the transport cannot accept) — with no blocking wait and
no internal retry; when exactly one of the two select cases is ready the
outcome is determined, and when both are ready the runtime chooses between
success and the cancellation error. -/
theorem c3_flush_outcomes (w : reqResWriter) (hw : w.err = none) (c a p : Bool) :
    ((w.flushFragment c a p).1 = none ∨ (w.flushFragment c a p).1 = some .cancelled
      ∨ (w.flushFragment c a p).1 = some .sendBufferFull)
  ∧ ((w.flushFragment c a p).1 = none → a = true)
  ∧ ((w.flushFragment c a p).1 = some .cancelled → c = true)
  ∧ ((w.flushFragment c a p).1 = some .sendBufferFull → c = false ∧ a = false)
  ∧ (c = true → a = false → (w.flushFragment c a p).1 = some .cancelled)
  ∧ (c = false → a = true → (w.flushFragment c a p).1 = none)
  ∧ (c = false → a = false → (w.flushFragment c a p).1 = some .sendBufferFull) := by
  cases c <;> cases a <;> cases p <;>
    simp [reqResWriter.flushFragment, selectOutcome, reqResWriter.failed, hw]

/-- C3 witness: the three determined outcomes at a fresh writer. -/
theorem c3_flush_outcomes_witness :
    (reqResWriter.init.flushFragment true false false).1 = some .cancelled
  ∧ (reqResWriter.init.flushFragment false true false).1 = none
  ∧ (reqResWriter.init.flushFragment false false false).1 = some .sendBufferFull := by
  have h1 := c3_flush_outcomes reqResWriter.init rfl true false false
  have h2 := c3_flush_outcomes reqResWriter.init rfl false true false
  have h3 := c3_flush_outcomes reqResWriter.init rfl false false false
  exact ⟨h1.2.2.2.2.1 rfl rfl, h2.2.2.2.2.2.1 rfl rfl, h3.2.2.2.2.2.2 rfl rfl⟩

/-- C4: for both writer and reader, recording failures via failed() stores
the first error, leaves an already-stored error unchanged on later failed()
calls, and invokes the exchange's shutdown exactly once per instance — on
the first failure only: after any nonempty sequence of failure reports on a
fresh instance the stored error is the first one and the shutdown count is
exactly 1, and failed() on a latched instance returns the stored error and
changes nothing. -/
theorem c4_failure_latch_once (mf : Bool → message) (cached : Option readableFragment)
    (frames : List Frame) (e : GoError) (es : List GoError) :
    (reqResWriter.init.runFailed (e :: es)).err = some e
  ∧ (reqResWriter.init.runFailed (e :: es)).shutdownCount = 1
  ∧ ((reqResReader.init mf cached frames).runFailed (e :: es)).err = some e
  ∧ ((reqResReader.init mf cached frames).runFailed (e :: es)).shutdownCount = 1
  ∧ (∀ (w : reqResWriter) (e0 e1 : GoError), w.err = some e0 → w.failed e1 = (e0, w))
  ∧ (∀ (r : reqResReader) (e0 e1 : GoError), r.err = some e0 → r.failed e1 = (e0, r)) := by
  have hw : reqResWriter.init.runFailed (e :: es)
      = { state := .PreArg1, err := some e, shutdownCount := 1 } := by
    have hlat := runFailed_latched_w
      { state := .PreArg1, err := some e, shutdownCount := 1 } e rfl es
    unfold reqResWriter.runFailed at hlat ⊢
    rw [List.foldl_cons]
    exact hlat
  have hr : (reqResReader.init mf cached frames).runFailed (e :: es)
      = { state := .PreArg1, err := some e, shutdownCount := 1,
          initialFragment := cached, frames := frames, messageForFragment := mf } := by
    have hlat := runFailed_latched_r
      { state := .PreArg1, err := some e, shutdownCount := 1,
        initialFragment := cached, frames := frames, messageForFragment := mf } e rfl es
    unfold reqResReader.runFailed at hlat ⊢
    rw [List.foldl_cons]
    exact hlat
  refine ⟨by rw [hw], by rw [hw], by rw [hr], by rw [hr], ?_, ?_⟩
  · intro w e0 e1 hw0
    exact failed_latched_w w e0 e1 hw0
  · intro r e0 e1 hr0
    exact failed_latched_r r e0 e1 hr0

/-- C4 witness: two failures on a fresh writer and on a fresh reader, and
failed() on latched instances. -/
theorem c4_failure_latch_once_witness :
    (reqResWriter.init.runFailed [.cancelled, .codecErr]).err = some .cancelled
  ∧ (reqResWriter.init.runFailed [.cancelled, .codecErr]).shutdownCount = 1
  ∧ ((reqResReader.init mfSample none []).runFailed [.cancelled, .codecErr]).err
      = some .cancelled
  ∧ latchedWriter.failed .codecErr = (.sendBufferFull, latchedWriter)
  ∧ latchedReader.failed .codecErr = (.sendBufferFull, latchedReader) := by
  have h := c4_failure_latch_once mfSample none [] .cancelled [.codecErr]
  exact ⟨h.1, h.2.1, h.2.2.1,
         h.2.2.2.2.1 latchedWriter .sendBufferFull .codecErr rfl,
         h.2.2.2.2.2 latchedReader .sendBufferFull .codecErr rfl⟩

/-- C5: for both writer and reader, a successful argument open for stage N
implies the machine was in PreArgN, advances it to PreArg(N+1) (Complete
after argument 3), and passes last=false for arguments 1 and 2 and last=true
for argument 3 to the fragmenting layer. -/
theorem c5_argument_sequencing :
    (∀ (w : reqResWriter) (cres : Option GoError) (a : ArgHandle) (w2 : reqResWriter),
        w.arg1Writer cres = (.ok a, w2) →
        w.state = .PreArg1 ∧ w2.state = .PreArg2 ∧ a.last = false)
  ∧ (∀ (w : reqResWriter) (cres : Option GoError) (a : ArgHandle) (w2 : reqResWriter),
        w.arg2Writer cres = (.ok a, w2) →
        w.state = .PreArg2 ∧ w2.state = .PreArg3 ∧ a.last = false)
  ∧ (∀ (w : reqResWriter) (cres : Option GoError) (a : ArgHandle) (w2 : reqResWriter),
        w.arg3Writer cres = (.ok a, w2) →
        w.state = .PreArg3 ∧ w2.state = .Complete ∧ a.last = true)
  ∧ (∀ (r : reqResReader) (cres : Option GoError) (a : ArgHandle) (r2 : reqResReader),
        r.arg1Reader cres = (.ok a, r2) →
        r.state = .PreArg1 ∧ r2.state = .PreArg2 ∧ a.last = false)
  ∧ (∀ (r : reqResReader) (cres : Option GoError) (a : ArgHandle) (r2 : reqResReader),
        r.arg2Reader cres = (.ok a, r2) →
        r.state = .PreArg2 ∧ r2.state = .PreArg3 ∧ a.last = false)
  ∧ (∀ (r : reqResReader) (cres : Option GoError) (a : ArgHandle) (r2 : reqResReader),
        r.arg3Reader cres = (.ok a, r2) →
        r.state = .PreArg3 ∧ r2.state = .Complete ∧ a.last = true) := by
  refine ⟨?_, ?_, ?_, ?_, ?_, ?_⟩ <;> intro x cres a x2 h
  · obtain ⟨-, hst, -, ha, hx⟩ := argWriter_ok_inv x cres false .PreArg1 .PreArg2 a x2 h
    exact ⟨hst, by rw [hx], ha⟩
  · obtain ⟨-, hst, -, ha, hx⟩ := argWriter_ok_inv x cres false .PreArg2 .PreArg3 a x2 h
    exact ⟨hst, by rw [hx], ha⟩
  · obtain ⟨-, hst, -, ha, hx⟩ := argWriter_ok_inv x cres true .PreArg3 .Complete a x2 h
    exact ⟨hst, by rw [hx], ha⟩
  · obtain ⟨hst, -, ha, hx⟩ := argReader_ok_inv x cres false .PreArg1 .PreArg2 a x2 h
    exact ⟨hst, by rw [hx], ha⟩
  · obtain ⟨hst, -, ha, hx⟩ := argReader_ok_inv x cres false .PreArg2 .PreArg3 a x2 h
    exact ⟨hst, by rw [hx], ha⟩
  · obtain ⟨hst, -, ha, hx⟩ := argReader_ok_inv x cres true .PreArg3 .Complete a x2 h
    exact ⟨hst, by rw [hx], ha⟩

/-- C5 witness: successful opens of argument 1 and argument 3 at concrete
writers and readers. -/
theorem c5_argument_sequencing_witness :
    (reqResWriter.init.state = .PreArg1
      ∧ ({ state := .PreArg2, err := none, shutdownCount := 0 } : reqResWriter).state
          = .PreArg2
      ∧ ({ last := false } : ArgHandle).last = false)
  ∧ (({ state := .PreArg3, err := none, shutdownCount := 0 } : reqResWriter).state
        = .PreArg3
      ∧ completeWriter.state = .Complete
      ∧ ({ last := true } : ArgHandle).last = true)
  ∧ ((reqResReader.init mfSample none []).state = .PreArg1
      ∧ ({ reqResReader.init mfSample none [] with state := .PreArg2 }).state = .PreArg2
      ∧ ({ last := false } : ArgHandle).last = false) := by
  have h := c5_argument_sequencing
  refine ⟨h.1 reqResWriter.init none { last := false }
            { state := .PreArg2, err := none, shutdownCount := 0 } rfl,
          h.2.2.1 { state := .PreArg3, err := none, shutdownCount := 0 } none
            { last := true } completeWriter rfl,
          h.2.2.2.1 (reqResReader.init mfSample none []) none { last := false }
            { reqResReader.init mfSample none [] with state := .PreArg2 } rfl⟩

/-- C6 (counterexample): an out-of-sequence open on an instance already
latched with a different error returns the latched error, not the
state-mismatch error: a writer latched with the send-buffer-full error in
state Complete, asked for arg1Writer, returns the send-buffer-full error. -/
theorem c6_state_mismatch_counterexample :
    latchedCompleteWriter.state ≠ .PreArg1
  ∧ (latchedCompleteWriter.arg1Writer none).1 = .error .sendBufferFull
  ∧ GoError.sendBufferFull ≠ .writerStateMismatch :=
  ⟨by decide, rfl, by decide⟩

/-- C6 (amended): on an unlatched writer or reader, an attempt to open an
argument out of sequence (machine not in the expected pre-state, including
reopening after Complete) fails with the state-mismatch error and leaves the
state-machine position unchanged from before the call. -/
theorem c6_state_mismatch (w : reqResWriter) (r : reqResReader) :
    (∀ (cres : Option GoError) (lst : Bool) (inS outS : reqResWriterState),
        w.err = none → w.state ≠ inS →
        (w.argWriter cres lst inS outS).1 = .error .writerStateMismatch
        ∧ ((w.argWriter cres lst inS outS).2).state = w.state)
  ∧ (∀ (cres : Option GoError) (lst : Bool) (inS outS : reqResReaderState),
        r.err = none → r.state ≠ inS →
        (r.argReader cres lst inS outS).1 = .error .readerStateMismatch
        ∧ ((r.argReader cres lst inS outS).2).state = r.state) := by
  constructor
  · intro cres lst inS outS hw hst
    have hcall : w.argWriter cres lst inS outS
        = (.error .writerStateMismatch,
           { w with err := some .writerStateMismatch,
                    shutdownCount := w.shutdownCount + 1 }) := by
      unfold reqResWriter.argWriter reqResWriter.failed
      rw [hw]
      simp [hst]
    rw [hcall]
    exact ⟨rfl, rfl⟩
  · intro cres lst inS outS hr hst
    have hcall : r.argReader cres lst inS outS
        = (.error .readerStateMismatch,
           { r with err := some .readerStateMismatch,
                    shutdownCount := r.shutdownCount + 1 }) := by
      unfold reqResReader.argReader reqResReader.failed
      rw [hr]
      simp [hst]
    rw [hcall]
    exact ⟨rfl, rfl⟩

/-- C6 witness: reopening after Complete on unlatched instances. -/
theorem c6_state_mismatch_witness :
    (completeWriter.argWriter none false .PreArg1 .PreArg2).1
      = .error .writerStateMismatch
  ∧ ((completeWriter.argWriter none false .PreArg1 .PreArg2).2).state
      = completeWriter.state
  ∧ (completeReader.argReader none false .PreArg1 .PreArg2).1
      = .error .readerStateMismatch
  ∧ ((completeReader.argReader none false .PreArg1 .PreArg2).2).state
      = completeReader.state := by
  have h := c6_state_mismatch completeWriter completeReader
  have hw := h.1 none false .PreArg1 .PreArg2 rfl (by decide)
  have hr := h.2 none false .PreArg1 .PreArg2 rfl (by decide)
  exact ⟨hw.1, hw.2, hr.1, hr.2⟩

/-- C9: when an unlatched writer in the expected pre-state fails to open the
underlying multi-fragment argument writer, argWriter returns that error with
the writer completely unchanged — no latch, no shutdown, no state advance;
the reader's argReader, on the analogous failure, latches the error, shuts
the exchange down once, and leaves the state enum unchanged. -/
theorem c9_contents_failure_asymmetry :
    (∀ (w : reqResWriter) (e : GoError) (lst : Bool) (inS outS : reqResWriterState),
        w.err = none → w.state = inS →
        w.argWriter (some e) lst inS outS = (.error e, w))
  ∧ (∀ (r : reqResReader) (e : GoError) (lst : Bool) (inS outS : reqResReaderState),
        r.err = none → r.state = inS →
        (r.argReader (some e) lst inS outS).1 = .error e
        ∧ ((r.argReader (some e) lst inS outS).2).err = some e
        ∧ ((r.argReader (some e) lst inS outS).2).shutdownCount = r.shutdownCount + 1
        ∧ ((r.argReader (some e) lst inS outS).2).state = r.state) := by
  constructor
  · intro w e lst inS outS hw hst
    unfold reqResWriter.argWriter
    rw [hw]
    simp [hst]
  · intro r e lst inS outS hr hst
    have hcall : r.argReader (some e) lst inS outS
        = (.error e, { r with err := some e, shutdownCount := r.shutdownCount + 1 }) := by
      unfold reqResReader.argReader reqResReader.failed
      rw [hr]
      simp [hst]
    rw [hcall]
    exact ⟨rfl, rfl, rfl, rfl⟩

/-- C9 witness: the asymmetry at fresh instances. -/
theorem c9_contents_failure_asymmetry_witness :
    reqResWriter.init.argWriter (some .codecErr) false .PreArg1 .PreArg2
      = (.error .codecErr, reqResWriter.init)
  ∧ ((reqResReader.init mfSample none []).argReader (some .codecErr) false
        .PreArg1 .PreArg2).1 = .error .codecErr
  ∧ (((reqResReader.init mfSample none []).argReader (some .codecErr) false
        .PreArg1 .PreArg2).2).err = some .codecErr
  ∧ (((reqResReader.init mfSample none []).argReader (some .codecErr) false
        .PreArg1 .PreArg2).2).shutdownCount
      = (reqResReader.init mfSample none []).shutdownCount + 1 := by
  have h := c9_contents_failure_asymmetry
  have hr := h.2 (reqResReader.init mfSample none []) .codecErr false .PreArg1 .PreArg2 rfl rfl
  exact ⟨h.1 reqResWriter.init .codecErr false .PreArg1 .PreArg2 rfl rfl,
         hr.1, hr.2.1, hr.2.2.1⟩

/-- C7: a reader holding a cached initial fragment returns it from the next
recvNextFragment call without touching the message exchange and clears the
cache (so it is delivered at most once); with no cached fragment and no
latched error, recvNextFragment's result is exactly: receive the next frame
of the message type expected for this fragment from the exchange, then parse
it with the fragment codec. -/
theorem c7_recv_next_fragment (r : reqResReader) (sizes : Byte → Nat) (initial : Bool) :
    (∀ f, r.initialFragment = some f →
        r.recvNextFragment sizes initial = (.ok f, { r with initialFragment := none }))
  ∧ (r.initialFragment = none → r.err = none →
        (r.recvNextFragment sizes initial).1 =
          match recvPeerFrameOfType (r.messageForFragment initial).messageType r.frames with
          | .error e => .error e
          | .ok (fr, _) => parseInboundFragment sizes fr.payload (r.messageForFragment initial)) := by
  constructor
  · intro f hf
    unfold reqResReader.recvNextFragment
    rw [hf]
  · intro hf he
    unfold reqResReader.recvNextFragment
    rw [hf]
    cases hrecv : recvPeerFrameOfType (r.messageForFragment initial).messageType r.frames with
    | error e =>
      simp [hrecv, reqResReader.failed, he]
    | ok pr =>
      obtain ⟨fr, rest⟩ := pr
      cases hp : parseInboundFragment sizes fr.payload (r.messageForFragment initial) with
      | error e =>
        simp [hrecv, hp, reqResReader.failed, he]
      | ok fragment =>
        simp [hrecv, hp]

/-- C7 witness: a cached reader delivers the cached fragment once; an
uncached reader's result is the receive-then-parse composition. -/
theorem c7_recv_next_fragment_witness :
    (reqResReader.init mfSample (some fragSample) []).recvNextFragment sizesSample true
      = (.ok fragSample,
         { reqResReader.init mfSample (some fragSample) [] with initialFragment := none })
  ∧ ((reqResReader.init mfSample none []).recvNextFragment sizesSample true).1
      = match recvPeerFrameOfType
            ((reqResReader.init mfSample none []).messageForFragment true).messageType
            (reqResReader.init mfSample none []).frames with
        | .error e => .error e
        | .ok (fr, _) =>
          parseInboundFragment sizesSample fr.payload
            ((reqResReader.init mfSample none []).messageForFragment true) := by
  refine ⟨?_, ?_⟩
  · exact (c7_recv_next_fragment (reqResReader.init mfSample (some fragSample) [])
      sizesSample true).1 fragSample rfl
  · exact (c7_recv_next_fragment (reqResReader.init mfSample none [])
      sizesSample true).2 rfl rfl

/-- C10: whenever a cached initial fragment is present, recvNextFragment
returns it regardless of whether an initial or a continuation fragment was
requested and regardless of the codec environment — the result is identical
for any `initial` flag, no message-type check is applied, the exchange's
frame queue is untouched, and the cache is cleared. -/
theorem c10_cached_fragment_unconditional (r : reqResReader) (f : readableFragment)
    (sizes sizes2 : Byte → Nat) (i i2 : Bool) (h : r.initialFragment = some f) :
    r.recvNextFragment sizes i = r.recvNextFragment sizes2 i2
  ∧ (r.recvNextFragment sizes i).1 = .ok f
  ∧ ((r.recvNextFragment sizes i).2).frames = r.frames
  ∧ ((r.recvNextFragment sizes i).2).initialFragment = none := by
  have hc : ∀ (s : Byte → Nat) (b : Bool),
      r.recvNextFragment s b = (.ok f, { r with initialFragment := none }) := by
    intro s b
    unfold reqResReader.recvNextFragment
    rw [h]
  rw [hc sizes i, hc sizes2 i2]
  exact ⟨rfl, rfl, rfl, rfl⟩

/-- C10 witness: a cached reader ignores the requested fragment kind. -/
theorem c10_cached_fragment_unconditional_witness :
    (reqResReader.init mfSample (some fragSample) []).recvNextFragment sizesSample true
      = (reqResReader.init mfSample (some fragSample) []).recvNextFragment (fun _ => 0) false
  ∧ ((reqResReader.init mfSample (some fragSample) []).recvNextFragment
        sizesSample true).1 = .ok fragSample := by
  have h := c10_cached_fragment_unconditional
    (reqResReader.init mfSample (some fragSample) []) fragSample
    sizesSample (fun _ => 0) true false rfl
  exact ⟨h.1, h.2.1⟩

end TChannel
